import Mathlib

/-!
Verification of the agent-orchestration and admin-intent-resolution core of
`src/backend/server.py` (FastAPI backend).

Shallow embedding conventions:
* Python strings are Lean `String`s; the Python operations used by the code
  (`str.lower`, `str.replace` with one-character pattern, `str.strip`,
  slicing `[:n]`, substring test `in`, `"\n".join`) are transcribed as the
  `py*` helpers below, operating on the character list of the string.
* The Mongo `categories` collection is a `List Category` in insertion order;
  `find_one {slug}` is a first-match scan, `insert_one` appends,
  `find().sort("name", 1).to_list(100)` is a stable sort by name followed by
  `take 100`.
* The external LLM agent and Python's `json.loads` are the environment: an
  agent call is modelled by an `ExecBehavior` (either an `AgentResult` value
  or a raised exception), and the outcome of `json.loads` on the stage-1
  content by a `ParseOutcome`.
* Raised Python exceptions are modelled explicitly: `Except` for endpoints
  that raise `HTTPException`, an `Option` result for the resolver (whose
  `none` models the Python function falling through and returning `None`).
* `Category.id` / `created_at` (a fresh UUID and a timestamp) are
  environment-generated noise not read by any of the verified logic, so the
  embedded `Category` record keeps only `name`, `slug`, `description`.
-/

/-- Python `s.lower()` (ASCII case folding, as used on the ASCII keywords here). -/
def pyLower (s : String) : String :=
  String.mk (s.data.map Char.toLower)

/-- Python `s.replace(a, b)` for one-character pattern and replacement. -/
def pyReplaceChar (s : String) (a b : Char) : String :=
  String.mk (s.data.map fun ch => if ch = a then b else ch)

/-- Python `s.strip()` – drop leading and trailing whitespace. -/
def pyStrip (s : String) : String :=
  String.mk (((s.data.dropWhile Char.isWhitespace).reverse.dropWhile Char.isWhitespace).reverse)

/-- Python `s.strip(chars)` – drop leading and trailing characters from a set. -/
def pyStripChars (s : String) (cs : List Char) : String :=
  String.mk (((s.data.dropWhile (cs.contains ·)).reverse.dropWhile (cs.contains ·)).reverse)

/-- Python slicing `s[:n]` (character based). -/
def pyTake (s : String) (n : Nat) : String :=
  String.mk (s.data.take n)

/-- Helper for Python's substring test: does `needle` occur inside the haystack list? -/
def containsSubList (needle : List Char) : List Char → Bool
  | [] => needle.isEmpty
  | c :: rest => needle.isPrefixOf (c :: rest) || containsSubList needle rest

/-- Python `needle in hay` on strings. -/
def containsSub (hay needle : String) : Bool :=
  containsSubList needle.data hay.data

/-- Python `"\n".join(lines)`. -/
def joinLines : List String → String
  | [] => ""
  | [s] => s
  | s :: rest => s ++ "\n" ++ joinLines rest

/-- Category record as persisted (fields read by the verified logic). -/
structure Category where
  name : String
  slug : String
  description : String
deriving DecidableEq

/-- Request body of POST /categories. -/
structure CategoryCreate where
  name : String
  description : String
deriving DecidableEq

/-- Result value returned by every agent execution (`metadata` is never read
by the verified logic and is omitted). -/
structure AgentResult where
  success : Bool
  content : String
  error : Option String
deriving DecidableEq

/-- The `action_result` dict of an `AdminAssistantResponse`: each `some`
field models a key present in the dict. -/
structure ActionResult where
  categories : Option (List Category) := none
  count : Option Nat := none
  category : Option Category := none
deriving DecidableEq

/-- Response model of POST /admin/assistant/chat. -/
structure AdminAssistantResponse where
  success : Bool
  response : String
  action_taken : Option String := none
  action_result : Option ActionResult := none
  error : Option String := none
deriving DecidableEq

/-- Slug computation, `name.lower().replace(" ", "-").replace("_", "-")` –
the identical expression at server.py lines 454, 545 and 586. -/
def slugify (name : String) : String :=
  pyReplaceChar (pyReplaceChar (pyLower name) ' ' '-') '_' '-'

/-- `db.categories.find_one({"slug": slug})` – first record with the slug. -/
def findBySlug (store : List Category) (slug : String) : Option Category :=
  store.find? (fun c => c.slug == slug)

/-- Lexicographic order on character lists (the collation used to model
Mongo's ascending sort on `name`). -/
def charListLe : List Char → List Char → Bool
  | [], _ => true
  | _ :: _, [] => false
  | a :: as, b :: bs => if a < b then true else if b < a then false else charListLe as bs

/-- One step of the stable insertion sort modelling Mongo `sort("name", 1)`. -/
def insertByName (c : Category) : List Category → List Category
  | [] => [c]
  | d :: ds =>
    if charListLe c.name.data d.name.data then c :: d :: ds else d :: insertByName c ds

/-- Stable ascending sort by `name`, modelling Mongo `sort("name", 1)`. -/
def sortByName : List Category → List Category
  | [] => []
  | c :: cs => insertByName c (sortByName cs)

/-- GET /categories: `db.categories.find().sort("name", 1).to_list(100)`. -/
def get_categories (store : List Category) : List Category :=
  (sortByName store).take 100

/-- POST /categories (`create_category`): derives the slug, rejects an
existing slug with HTTP 400, else inserts.  Result: the created category and
the new store, or the raised `HTTPException` as (status, detail). -/
def create_category (category_input : CategoryCreate) (store : List Category) :
    Except (Nat × String) (Category × List Category) :=
  let slug := slugify category_input.name
  match findBySlug store slug with
  | some _ => Except.error (400, "Category with this name already exists")
  | none =>
    let category : Category := ⟨category_input.name, slug, category_input.description⟩
    Except.ok (category, store ++ [category])

/-- Agent variant constructed by the registry. -/
inductive AgentKind where
  | chatAgent
  | searchAgent
deriving DecidableEq

/-- A live agent instance; `instanceId` is a freshness token distinguishing
separate constructions (object identity), `configVersion` records the
process-wide config captured at construction time. -/
structure AgentInstance where
  kind : AgentKind
  instanceId : Nat
  configVersion : Nat
deriving DecidableEq

/-- The relevant part of `app.state`: the agent cache, the process-wide
`agent_config` (as an opaque version token) and a supply of fresh ids. -/
structure AppState where
  agent_cache : List (String × AgentInstance)
  agent_config : Nat
  nextInstanceId : Nat
deriving DecidableEq

/-- Lookup `agent_type in cache`. -/
def cacheLookup (cache : List (String × AgentInstance)) (tag : String) : Option AgentInstance :=
  (cache.find? (fun e => e.1 == tag)).map (fun e => e.2)

/-- `_get_or_create_agent`: return the cached instance unchanged, otherwise
construct exactly one instance from the process-wide config, cache it and
return it; an unknown tag raises `HTTPException(400, ...)`. -/
def _get_or_create_agent (st : AppState) (agent_type : String) :
    Except (Nat × String) (AppState × AgentInstance) :=
  match cacheLookup st.agent_cache agent_type with
  | some a => Except.ok (st, a)
  | none =>
    if agent_type = "search" then
      let a : AgentInstance := ⟨AgentKind.searchAgent, st.nextInstanceId, st.agent_config⟩
      Except.ok ({ st with
        agent_cache := st.agent_cache ++ [(agent_type, a)],
        nextInstanceId := st.nextInstanceId + 1 }, a)
    else if agent_type = "chat" then
      let a : AgentInstance := ⟨AgentKind.chatAgent, st.nextInstanceId, st.agent_config⟩
      Except.ok ({ st with
        agent_cache := st.agent_cache ++ [(agent_type, a)],
        nextInstanceId := st.nextInstanceId + 1 }, a)
    else
      Except.error (400, "Unknown agent type '" ++ agent_type ++ "'")

/-- Behaviour of one external call (an agent `execute`): either it returns an
`AgentResult`, or it raises an exception with the given description. -/
inductive ExecBehavior where
  | returns (result : AgentResult)
  | throws (description : String)
deriving DecidableEq

/-- The fixed prefix of the summarization prompt. -/
def summaryPromptPrefix : String :=
  "Summarize the following article in 2-3 concise sentences:\n\n"

/-- The summarization prompt: the article content is truncated to its first
2000 characters (`content[:2000]`) before being embedded. -/
def summaryPrompt (content : String) : String :=
  summaryPromptPrefix ++ pyTake content 2000

/-- `_generate_summary`: asks the chat agent (modelled by the oracle
`chatExec`, keyed by prompt) to summarize; on `success=False` returns
"Summary generation failed.", on a raised exception "Summary not available.". -/
def _generate_summary (content : String) (chatExec : String → ExecBehavior) : String :=
  match chatExec (summaryPrompt content) with
  | ExecBehavior.throws _ => "Summary not available."
  | ExecBehavior.returns result =>
    if result.success then result.content else "Summary generation failed."

/-- Which intent the keyword classification at lines 516/607 selects
(transcription of the if/elif/else chain, first match wins). -/
inductive Intent where
  | createCategory
  | listCategories
  | general
deriving DecidableEq

/-- The keyword intent classification of `admin_assistant_chat`:
`message = message.lower()`; "create" and "categor" → CreateCategory, else a
listing verb and "categor" → ListCategories, else General. -/
def classify_intent (userMessage : String) : Intent :=
  let message := pyLower userMessage
  if containsSub message "create" && containsSub message "categor" then
    Intent.createCategory
  else if (containsSub message "list" || containsSub message "show" ||
      containsSub message "what") && containsSub message "categor" then
    Intent.listCategories
  else
    Intent.general

/-- Outcome of `json.loads(extraction_result.content.strip())` followed by
the two `.get(..., "").strip()` accesses:
* `decodeError` – `json.loads` raises `json.JSONDecodeError`;
* `objOk name desc` – a JSON object whose `"name"`/`"description"` lookups
  (with default `""`) produce the strings `name` and `desc`;
* `otherError e` – the value parses but the subsequent attribute access
  raises a non-`JSONDecodeError` exception with description `e` (a JSON
  non-object, or a non-string field value). -/
inductive ParseOutcome where
  | decodeError
  | objOk (name : String) (description : String)
  | otherError (description : String)
deriving DecidableEq

/-- One agent `execute` call site inside `admin_assistant_chat`. -/
inductive AgentCall where
  | extraction
  | simpleFallback
  | general
deriving DecidableEq

/-- The external environment of one resolver run: the behaviour of each of
the (at most two) agent calls the taken branch can make, and of the JSON
parse of the stage-1 content. -/
structure AgentEnv where
  extractionExec : ExecBehavior
  parseOutcome : ParseOutcome
  simpleExec : ExecBehavior
  generalExec : ExecBehavior
deriving DecidableEq

/-- Result of one resolver run: the returned value (`none` models the Python
function body ending without a `return`, i.e. returning `None`), the store
after the run, and the agent calls that were issued, in order. -/
structure ResolverOutput where
  response? : Option AdminAssistantResponse
  store : List Category
  calls : List AgentCall
deriving DecidableEq

/-- The generic apology produced by the resolver's top-level `except`. -/
def apologyResponse (e : String) : AdminAssistantResponse :=
  { success := false
    response := "Sorry, I encountered an error. Please try again."
    action_taken := none
    action_result := none
    error := some e }

/-- The duplicate-slug rejection (identical at both creation stages). -/
def alreadyExistsResponse (name : String) : AdminAssistantResponse :=
  { success := false
    response := "A category called '" ++ name ++ "' already exists. Please choose a different name."
    action_taken := none
    action_result := none
    error := some "Category already exists" }

/-- The terminal failure after both extraction stages fail. -/
def rephraseResponse : AdminAssistantResponse :=
  { success := false
    response := "I couldn't understand the category name. Could you please rephrase? For example: 'Create a category called Technology'"
    action_taken := none
    action_result := none
    error := some "Could not parse category name" }

/-- The ListCategories branch: fetch `find().sort("name", 1).to_list(100)`;
empty → invitation with `{categories: [], count: 0}`; otherwise enumerate
the names in the text and return `{count: len(categories)}`. -/
def listCategoriesResponse (store : List Category) : AdminAssistantResponse :=
  let categories := (sortByName store).take 100
  if categories.isEmpty then
    { success := true
      response := "You don't have any categories yet. Would you like me to create one?"
      action_taken := some "list_categories"
      action_result := some { categories := some [], count := some 0, category := none }
      error := none }
  else
    let category_list := joinLines (categories.map (fun cat => "â€¢ " ++ cat.name))
    { success := true
      response := "Here are your categories:\n" ++ category_list
      action_taken := some "list_categories"
      action_result := some { categories := none, count := some categories.length, category := none }
      error := none }

/-- POST /admin/assistant/chat (`admin_assistant_chat`), lines 506-658.
The branch structure transcribes the source: intent keywords first; in the
create branch, a stage-1 structured extraction whose content is parsed as
JSON, with a stage-2 plain-text fallback on `json.JSONDecodeError`; a list
branch; a general chat branch.  Exceptions raised by the modelled external
calls are converted by the top-level `except Exception` into the apology
response.  When stage 1 returns `success=False` the Python code falls
through every `return`, which is modelled by `response? = none`. -/
def admin_assistant_chat (userMessage : String) (env : AgentEnv) (store : List Category) :
    ResolverOutput :=
  match classify_intent userMessage with
  | Intent.createCategory =>
    match env.extractionExec with
    | ExecBehavior.throws e => ⟨some (apologyResponse e), store, [AgentCall.extraction]⟩
    | ExecBehavior.returns extraction_result =>
      if extraction_result.success then
        match env.parseOutcome with
        | ParseOutcome.objOk nameRaw descRaw =>
          let name := pyStrip nameRaw
          let description := pyStrip descRaw
          let slug := slugify name
          match findBySlug store slug with
          | some _ => ⟨some (alreadyExistsResponse name), store, [AgentCall.extraction]⟩
          | none =>
            let category : Category := ⟨name, slug, description⟩
            ⟨some
              { success := true
                response := "Great! I've created the category '" ++ name ++ "' for you. " ++
                  (if description ≠ "" then "Description: " ++ description else "")
                action_taken := some "create_category"
                action_result := some { categories := none, count := none, category := some category }
                error := none },
              store ++ [category], [AgentCall.extraction]⟩
        | ParseOutcome.decodeError =>
          match env.simpleExec with
          | ExecBehavior.throws e =>
            ⟨some (apologyResponse e), store, [AgentCall.extraction, AgentCall.simpleFallback]⟩
          | ExecBehavior.returns simple_result =>
            if !simple_result.success || pyStrip simple_result.content = "" then
              ⟨some rephraseResponse, store, [AgentCall.extraction, AgentCall.simpleFallback]⟩
            else
              let category_name := pyStripChars (pyStrip simple_result.content) ['"', '.', ',']
              let slug := slugify category_name
              match findBySlug store slug with
              | some _ =>
                ⟨some (alreadyExistsResponse category_name), store,
                  [AgentCall.extraction, AgentCall.simpleFallback]⟩
              | none =>
                let category : Category := ⟨category_name, slug, ""⟩
                ⟨some
                  { success := true
                    response := "Done! I've created the category '" ++ category_name ++ "' for you."
                    action_taken := some "create_category"
                    action_result := some { categories := none, count := none, category := some category }
                    error := none },
                  store ++ [category], [AgentCall.extraction, AgentCall.simpleFallback]⟩
        | ParseOutcome.otherError e => ⟨some (apologyResponse e), store, [AgentCall.extraction]⟩
      else
        ⟨none, store, [AgentCall.extraction]⟩
  | Intent.listCategories =>
    ⟨some (listCategoriesResponse store), store, []⟩
  | Intent.general =>
    match env.generalExec with
    | ExecBehavior.throws e => ⟨some (apologyResponse e), store, [AgentCall.general]⟩
    | ExecBehavior.returns result =>
      ⟨some
        { success := result.success
          response := result.content
          action_taken := none
          action_result := none
          error := result.error },
        store, [AgentCall.general]⟩

theorem containsSubList_nil (l : List Char) : containsSubList [] l = true := by
  cases l <;> simp [containsSubList, List.isPrefixOf]

theorem isPrefixOf_append_self (needle post : List Char) :
    needle.isPrefixOf (needle ++ post) = true := by
  induction needle with
  | nil => simp [List.isPrefixOf]
  | cons c cs ih => simp [List.isPrefixOf, ih]

theorem containsSubList_decomp (pre needle post : List Char) :
    containsSubList needle (pre ++ needle ++ post) = true := by
  induction pre with
  | nil =>
    cases needle with
    | nil => simpa using containsSubList_nil post
    | cons c cs =>
      have h : containsSubList (c :: cs) (([] : List Char) ++ (c :: cs) ++ post) =
          ((c :: cs).isPrefixOf ((c :: cs) ++ post) ||
            containsSubList (c :: cs) (cs ++ post)) := rfl
      rw [h, isPrefixOf_append_self]
      simp
  | cons p ps ih =>
    have h : containsSubList needle ((p :: ps) ++ needle ++ post) =
        (needle.isPrefixOf ((p :: ps) ++ needle ++ post) ||
          containsSubList needle (ps ++ needle ++ post)) := rfl
    rw [h, ih]
    simp

theorem containsSub_decomp (pre needle post : String) :
    containsSub (pre ++ needle ++ post) needle = true := by
  unfold containsSub
  rw [String.data_append, String.data_append]
  exact containsSubList_decomp pre.data needle.data post.data

theorem containsSub_of_eq (hay pre needle post : String)
    (h : hay = pre ++ needle ++ post) : containsSub hay needle = true := by
  rw [h]; exact containsSub_decomp pre needle post

/-- Claim C5: every message whose lowercasing contains both "create" and
"categor" is classified as CreateCategory, regardless of whether the listing
verbs "list"/"show"/"what" also occur (precedence of the first branch). -/
theorem c5_create_precedence (msg : String)
    (hc : containsSub (pyLower msg) "create" = true)
    (hk : containsSub (pyLower msg) "categor" = true) :
    classify_intent msg = Intent.createCategory := by
  unfold classify_intent
  simp [hc, hk]

theorem c5_witness :
    containsSub (pyLower "Show me the list: what if you create a new Category?") "create" = true ∧
    containsSub (pyLower "Show me the list: what if you create a new Category?") "categor" = true ∧
    containsSub (pyLower "Show me the list: what if you create a new Category?") "list" = true ∧
    containsSub (pyLower "Show me the list: what if you create a new Category?") "show" = true ∧
    containsSub (pyLower "Show me the list: what if you create a new Category?") "what" = true ∧
    classify_intent "Show me the list: what if you create a new Category?" = Intent.createCategory :=
  ⟨by decide, by decide, by decide, by decide, by decide,
    c5_create_precedence "Show me the list: what if you create a new Category?"
      (by decide) (by decide)⟩

/-- Claim C9: the registry caches at most one agent instance per type tag:
if a call for "chat" returned instance `a` with state `st'`, a second call on
`st'` returns exactly the same state and the same instance (same freshness
token, no reconstruction, no config refresh); and a tag that is neither
"search" nor "chat" (and is not cached) fails with HTTP 400, not a crash. -/
theorem c9_registry_singleton :
    (∀ (st st' : AppState) (a : AgentInstance),
      _get_or_create_agent st "chat" = Except.ok (st', a) →
      _get_or_create_agent st' "chat" = Except.ok (st', a)) ∧
    (∀ (st : AppState) (tag : String),
      tag ≠ "search" → tag ≠ "chat" → cacheLookup st.agent_cache tag = none →
      _get_or_create_agent st tag =
        Except.error (400, "Unknown agent type '" ++ tag ++ "'")) := by
  constructor
  · intro st st' a h
    unfold _get_or_create_agent at h ⊢
    cases hl : cacheLookup st.agent_cache "chat" with
    | some a0 =>
      rw [hl] at h
      obtain ⟨rfl, rfl⟩ : st = st' ∧ a0 = a := by
        simpa using h
      rw [hl]
    | none =>
      rw [hl] at h
      simp only [if_neg (by decide : ¬ ("chat" : String) = "search"),
        if_pos rfl] at h
      obtain ⟨rfl, rfl⟩ :
          ({ st with
            agent_cache := st.agent_cache ++
              [("chat", ⟨AgentKind.chatAgent, st.nextInstanceId, st.agent_config⟩)],
            nextInstanceId := st.nextInstanceId + 1 } : AppState) = st' ∧
          (⟨AgentKind.chatAgent, st.nextInstanceId, st.agent_config⟩ : AgentInstance) = a := by
        simpa using h
      have hl2 : cacheLookup
          (st.agent_cache ++
            [("chat", (⟨AgentKind.chatAgent, st.nextInstanceId, st.agent_config⟩ : AgentInstance))])
          "chat" = some ⟨AgentKind.chatAgent, st.nextInstanceId, st.agent_config⟩ := by
        unfold cacheLookup at hl ⊢
        rw [List.find?_append]
        have : st.agent_cache.find?
            (fun e => e.1 == "chat") = none := by
          cases hf : st.agent_cache.find? (fun e => e.1 == "chat") with
          | none => rfl
          | some e => rw [hf] at hl; simp at hl
        rw [this]
        rfl
      simp only [hl2]
  · intro st tag hs hc hl
    unfold _get_or_create_agent
    rw [hl]
    simp [hs, hc]

theorem c9_witness :
    _get_or_create_agent
      (⟨[("chat", ⟨AgentKind.chatAgent, 0, 7⟩)], 7, 1⟩ : AppState) "chat" =
      Except.ok (⟨[("chat", ⟨AgentKind.chatAgent, 0, 7⟩)], 7, 1⟩,
        ⟨AgentKind.chatAgent, 0, 7⟩) ∧
    _get_or_create_agent (⟨[], 7, 0⟩ : AppState) "supervisor" =
      Except.error (400, "Unknown agent type 'supervisor'") :=
  ⟨c9_registry_singleton.1 ⟨[], 7, 0⟩ ⟨[("chat", ⟨AgentKind.chatAgent, 0, 7⟩)], 7, 1⟩
      ⟨AgentKind.chatAgent, 0, 7⟩ rfl,
    c9_registry_singleton.2 ⟨[], 7, 0⟩ "supervisor" (by decide) (by decide) rfl⟩

/-- Claim C1 (code bug): the resolver is supposed to turn every internal
failure into a well-formed non-success `AdminAssistantResponse`, but when the
message classifies as CreateCategory and the stage-1 extraction call returns
`success=False`, the Python body skips every `return` statement and the
endpoint coroutine returns `None` (here `response? = none`), which FastAPI
surfaces as a transport-level response-validation failure. -/
theorem c1_stage1_failure_returns_none :
    (admin_assistant_chat "create a category called Tech"
      ⟨ExecBehavior.returns ⟨false, "", some "llm unavailable"⟩,
        ParseOutcome.decodeError,
        ExecBehavior.returns ⟨true, "Tech", none⟩,
        ExecBehavior.returns ⟨true, "", none⟩⟩ []) =
      ⟨none, [], [AgentCall.extraction]⟩ := by
  decide

/-- Claim C8 counterexample: when the chat agent's execution returns
`success=False` (no exception), `_generate_summary` returns
"Summary generation failed.", not the fixed string "summary not available"
the claim names for both failure modes. -/
theorem c8_counterexample :
    _generate_summary "Some article content"
        (fun _ => ExecBehavior.returns ⟨false, "", some "model error"⟩) =
      "Summary generation failed." ∧
    "Summary generation failed." ≠ "summary not available" ∧
    "Summary generation failed." ≠ "Summary not available." :=
  ⟨rfl, by decide, by decide⟩

/-- Claim C8 (amended): `_generate_summary` never raises for any input; on a
raised agent exception it returns "Summary not available.", on
`AgentResult.success=False` it returns "Summary generation failed.", on
success it returns the agent's content, and the prompt embeds the input
truncated to its first 2000 characters, so the prompt length is bounded by
the fixed prefix length plus 2000. -/
theorem c8_summary_behavior (content : String) (chatExec : String → ExecBehavior) :
    (∀ e, chatExec (summaryPrompt content) = ExecBehavior.throws e →
      _generate_summary content chatExec = "Summary not available.") ∧
    (∀ r, chatExec (summaryPrompt content) = ExecBehavior.returns r → r.success = false →
      _generate_summary content chatExec = "Summary generation failed.") ∧
    (∀ r, chatExec (summaryPrompt content) = ExecBehavior.returns r → r.success = true →
      _generate_summary content chatExec = r.content) ∧
    (summaryPrompt content).length ≤ summaryPromptPrefix.length + 2000 := by
  refine ⟨?_, ?_, ?_, ?_⟩
  · intro e he
    unfold _generate_summary
    rw [he]
  · intro r hr hf
    unfold _generate_summary
    rw [hr]
    simp [hf]
  · intro r hr hs
    unfold _generate_summary
    rw [hr]
    simp [hs]
  · unfold summaryPrompt pyTake
    have h1 : (String.mk (content.data.take 2000)).length =
        (content.data.take 2000).length := String.length_mk _
    have h2 : (content.data.take 2000).length ≤ 2000 := List.length_take_le 2000 content.data
    rw [String.length_append, h1]
    omega

theorem c8_witness :
    _generate_summary "text" (fun _ => ExecBehavior.throws "boom") = "Summary not available." ∧
    _generate_summary "text" (fun _ => ExecBehavior.returns ⟨false, "", some "e"⟩) =
      "Summary generation failed." ∧
    _generate_summary "text" (fun _ => ExecBehavior.returns ⟨true, "a summary", none⟩) =
      "a summary" ∧
    (summaryPrompt "text").length ≤ summaryPromptPrefix.length + 2000 :=
  ⟨(c8_summary_behavior "text" (fun _ => ExecBehavior.throws "boom")).1 "boom" rfl,
    (c8_summary_behavior "text"
      (fun _ => ExecBehavior.returns ⟨false, "", some "e"⟩)).2.1 ⟨false, "", some "e"⟩ rfl rfl,
    (c8_summary_behavior "text"
      (fun _ => ExecBehavior.returns ⟨true, "a summary", none⟩)).2.2.1 ⟨true, "a summary", none⟩ rfl rfl,
    (c8_summary_behavior "text" (fun _ => ExecBehavior.throws "boom")).2.2.2⟩

/-- Claim C3: on a CreateCategory message, if stage 1's agent call succeeds
but its output fails to parse as JSON (`json.JSONDecodeError`), the stage-2
plain-text call is attempted (both calls appear in the trace); and if stage 2
returns no agent success or an empty trimmed string, the pipeline terminates
with the non-success rephrase response, no further agent call and no change
to the store. -/
theorem c3_fallback_then_terminal (msg : String) (env : AgentEnv) (store : List Category)
    (er sr : AgentResult)
    (hintent : classify_intent msg = Intent.createCategory)
    (hexec : env.extractionExec = ExecBehavior.returns er)
    (hsucc : er.success = true)
    (hparse : env.parseOutcome = ParseOutcome.decodeError)
    (hsimple : env.simpleExec = ExecBehavior.returns sr)
    (hfail : sr.success = false ∨ pyStrip sr.content = "") :
    admin_assistant_chat msg env store =
      ⟨some rephraseResponse, store, [AgentCall.extraction, AgentCall.simpleFallback]⟩ ∧
    rephraseResponse.success = false ∧
    containsSub rephraseResponse.response "rephrase" = true := by
  refine ⟨?_, rfl, by decide⟩
  unfold admin_assistant_chat
  rcases hfail with hf | hf <;>
    simp [hintent, hexec, hparse, hsimple, hsucc, hf]

theorem c3_witness :
    admin_assistant_chat "create a category named Stuff"
      ⟨ExecBehavior.returns ⟨true, "not json at all", none⟩,
        ParseOutcome.decodeError,
        ExecBehavior.returns ⟨true, "   ", none⟩,
        ExecBehavior.returns ⟨true, "", none⟩⟩ [] =
      ⟨some rephraseResponse, [], [AgentCall.extraction, AgentCall.simpleFallback]⟩ ∧
    rephraseResponse.success = false ∧
    containsSub rephraseResponse.response "rephrase" = true :=
  c3_fallback_then_terminal "create a category named Stuff"
    ⟨ExecBehavior.returns ⟨true, "not json at all", none⟩,
      ParseOutcome.decodeError,
      ExecBehavior.returns ⟨true, "   ", none⟩,
      ExecBehavior.returns ⟨true, "", none⟩⟩ []
    ⟨true, "not json at all", none⟩ ⟨true, "   ", none⟩
    (by decide) rfl rfl rfl rfl (Or.inr (by decide))

/-- Claim C4: a create-category request (via either extraction stage) whose
computed slug is already present is rejected atomically: the resolver returns
the non-success already-exists response, the store is returned unchanged, and
the already-exists message really mentions "already exists". -/
theorem c4_duplicate_slug_rejected (msg : String) (env : AgentEnv) (store : List Category)
    (er : AgentResult)
    (hintent : classify_intent msg = Intent.createCategory)
    (hexec : env.extractionExec = ExecBehavior.returns er)
    (hsucc : er.success = true) :
    (∀ nameRaw descRaw c0,
      env.parseOutcome = ParseOutcome.objOk nameRaw descRaw →
      findBySlug store (slugify (pyStrip nameRaw)) = some c0 →
      admin_assistant_chat msg env store =
        ⟨some (alreadyExistsResponse (pyStrip nameRaw)), store, [AgentCall.extraction]⟩) ∧
    (∀ sr c0,
      env.parseOutcome = ParseOutcome.decodeError →
      env.simpleExec = ExecBehavior.returns sr →
      sr.success = true → ¬ pyStrip sr.content = "" →
      findBySlug store (slugify (pyStripChars (pyStrip sr.content) ['"', '.', ','])) = some c0 →
      admin_assistant_chat msg env store =
        ⟨some (alreadyExistsResponse (pyStripChars (pyStrip sr.content) ['"', '.', ','])), store,
          [AgentCall.extraction, AgentCall.simpleFallback]⟩) ∧
    (∀ name, (alreadyExistsResponse name).success = false ∧
      containsSub (alreadyExistsResponse name).response "already exists" = true) := by
  refine ⟨?_, ?_, ?_⟩
  · intro nameRaw descRaw c0 hparse hfind
    unfold admin_assistant_chat
    simp [hintent, hexec, hparse, hsucc, hfind]
  · intro sr c0 hparse hsimple hsrs hne hfind
    unfold admin_assistant_chat
    simp [hintent, hexec, hparse, hsimple, hsucc, hsrs, hne, hfind]
  · intro name
    refine ⟨rfl, ?_⟩
    apply containsSub_of_eq _ ("A category called '" ++ name ++ "' ") _
      ". Please choose a different name."
    unfold alreadyExistsResponse
    simp only [String.append_assoc]
    rfl

theorem c4_witness :
    admin_assistant_chat "create a category called Tech"
      ⟨ExecBehavior.returns ⟨true, "json", none⟩,
        ParseOutcome.objOk " Tech " "gadgets",
        ExecBehavior.returns ⟨true, "", none⟩,
        ExecBehavior.returns ⟨true, "", none⟩⟩
      [⟨"Tech", "tech", ""⟩] =
      ⟨some (alreadyExistsResponse "Tech"), [⟨"Tech", "tech", ""⟩], [AgentCall.extraction]⟩ ∧
    admin_assistant_chat "create a category called Tech"
      ⟨ExecBehavior.returns ⟨true, "not json", none⟩,
        ParseOutcome.decodeError,
        ExecBehavior.returns ⟨true, "\"Tech\"", none⟩,
        ExecBehavior.returns ⟨true, "", none⟩⟩
      [⟨"Tech", "tech", ""⟩] =
      ⟨some (alreadyExistsResponse "Tech"), [⟨"Tech", "tech", ""⟩],
        [AgentCall.extraction, AgentCall.simpleFallback]⟩ ∧
    (alreadyExistsResponse "Tech").success = false ∧
    containsSub (alreadyExistsResponse "Tech").response "already exists" = true := by
  refine ⟨?_, ?_, ?_, ?_⟩
  · have h := (c4_duplicate_slug_rejected "create a category called Tech"
      ⟨ExecBehavior.returns ⟨true, "json", none⟩,
        ParseOutcome.objOk " Tech " "gadgets",
        ExecBehavior.returns ⟨true, "", none⟩,
        ExecBehavior.returns ⟨true, "", none⟩⟩
      [⟨"Tech", "tech", ""⟩] ⟨true, "json", none⟩ (by decide) rfl rfl).1
      " Tech " "gadgets" ⟨"Tech", "tech", ""⟩ rfl (by decide)
    have hn : pyStrip " Tech " = "Tech" := by decide
    rw [hn] at h
    exact h
  · have h := (c4_duplicate_slug_rejected "create a category called Tech"
      ⟨ExecBehavior.returns ⟨true, "not json", none⟩,
        ParseOutcome.decodeError,
        ExecBehavior.returns ⟨true, "\"Tech\"", none⟩,
        ExecBehavior.returns ⟨true, "", none⟩⟩
      [⟨"Tech", "tech", ""⟩] ⟨true, "not json", none⟩ (by decide) rfl rfl).2.1
      ⟨true, "\"Tech\"", none⟩ ⟨"Tech", "tech", ""⟩ rfl rfl rfl (by decide) (by decide)
    have hn : pyStripChars (pyStrip "\"Tech\"") ['"', '.', ','] = "Tech" := by decide
    rw [hn] at h
    exact h
  · exact ((c4_duplicate_slug_rejected "create a category called Tech"
      ⟨ExecBehavior.returns ⟨true, "", none⟩, ParseOutcome.decodeError,
        ExecBehavior.returns ⟨true, "", none⟩, ExecBehavior.returns ⟨true, "", none⟩⟩ []
      ⟨true, "", none⟩ (by decide) rfl rfl).2.2 "Tech").1
  · exact ((c4_duplicate_slug_rejected "create a category called Tech"
      ⟨ExecBehavior.returns ⟨true, "", none⟩, ParseOutcome.decodeError,
        ExecBehavior.returns ⟨true, "", none⟩, ExecBehavior.returns ⟨true, "", none⟩⟩ []
      ⟨true, "", none⟩ (by decide) rfl rfl).2.2 "Tech").2

/-- Claim C2 counterexample: stage 1 parses the agent output as the JSON
object with no "name" key (both `.get` lookups default to `""`), yet the
pipeline still proceeds to creation and inserts a category with empty name
and empty slug — refuting "if the parsed JSON lacks a usable name, no
category is created from that stage-1 result". -/
theorem c2_counterexample :
    admin_assistant_chat "create a category"
      ⟨ExecBehavior.returns ⟨true, "", none⟩,
        ParseOutcome.objOk "" "",
        ExecBehavior.returns ⟨true, "", none⟩,
        ExecBehavior.returns ⟨true, "", none⟩⟩ [] =
      ⟨some { success := true
              response := "Great! I've created the category '' for you. "
              action_taken := some "create_category"
              action_result := some
                { categories := none, count := none, category := some ⟨"", "", ""⟩ }
              error := none },
        [⟨"", "", ""⟩], [AgentCall.extraction]⟩ := by
  decide

/-- Claim C2 (amended): stage-1 structured extraction proceeds directly to
category creation whenever the agent call succeeds and its raw text parses
as a JSON object, using the object's (possibly empty) `name`/`description`
with default `""`; no non-emptiness check of `name` is performed, so a
parsed object lacking a usable name still creates a category (with empty
name) when its slug is unused. -/
theorem c2_stage1_creates_without_name_check (msg : String) (env : AgentEnv)
    (store : List Category) (er : AgentResult) (nameRaw descRaw : String)
    (hintent : classify_intent msg = Intent.createCategory)
    (hexec : env.extractionExec = ExecBehavior.returns er)
    (hsucc : er.success = true)
    (hparse : env.parseOutcome = ParseOutcome.objOk nameRaw descRaw)
    (hfree : findBySlug store (slugify (pyStrip nameRaw)) = none) :
    admin_assistant_chat msg env store =
      ⟨some { success := true
              response := "Great! I've created the category '" ++ pyStrip nameRaw ++
                "' for you. " ++
                (if pyStrip descRaw ≠ "" then "Description: " ++ pyStrip descRaw else "")
              action_taken := some "create_category"
              action_result := some
                { categories := none, count := none,
                  category := some ⟨pyStrip nameRaw, slugify (pyStrip nameRaw), pyStrip descRaw⟩ }
              error := none },
        store ++ [⟨pyStrip nameRaw, slugify (pyStrip nameRaw), pyStrip descRaw⟩],
        [AgentCall.extraction]⟩ := by
  unfold admin_assistant_chat
  simp [hintent, hexec, hparse, hsucc, hfree]

theorem c2_witness :
    admin_assistant_chat "create a category please"
      ⟨ExecBehavior.returns ⟨true, "", none⟩,
        ParseOutcome.objOk "" "",
        ExecBehavior.returns ⟨true, "", none⟩,
        ExecBehavior.returns ⟨true, "", none⟩⟩ [] =
      ⟨some { success := true
              response := "Great! I've created the category '" ++ pyStrip "" ++
                "' for you. " ++
                (if pyStrip "" ≠ "" then "Description: " ++ pyStrip "" else "")
              action_taken := some "create_category"
              action_result := some
                { categories := none, count := none,
                  category := some ⟨pyStrip "", slugify (pyStrip ""), pyStrip ""⟩ }
              error := none },
        [] ++ [⟨pyStrip "", slugify (pyStrip ""), pyStrip ""⟩],
        [AgentCall.extraction]⟩ :=
  c2_stage1_creates_without_name_check "create a category please"
    ⟨ExecBehavior.returns ⟨true, "", none⟩,
      ParseOutcome.objOk "" "",
      ExecBehavior.returns ⟨true, "", none⟩,
      ExecBehavior.returns ⟨true, "", none⟩⟩ []
    ⟨true, "", none⟩ "" "" (by decide) rfl rfl rfl rfl

/-- Any store a resolver run can produce is either the input store unchanged
or the input store with exactly one appended category whose slug is
`slugify` of its name. -/
theorem resolver_store_invariant (msg : String) (env : AgentEnv) (store : List Category) :
    (admin_assistant_chat msg env store).store = store ∨
    ∃ name desc, (admin_assistant_chat msg env store).store =
      store ++ [⟨name, slugify name, desc⟩] := by
  unfold admin_assistant_chat
  split
  · split
    · left; rfl
    · split
      · split
        · dsimp only
          split
          · left; rfl
          · right; exact ⟨_, _, rfl⟩
        · split
          · left; rfl
          · split
            · left; rfl
            · dsimp only
              split
              · left; rfl
              · right; exact ⟨_, _, rfl⟩
        · left; rfl
      · left; rfl
  · left; rfl
  · split
    · left; rfl
    · left; rfl

/-- Claim C6: every successfully created category stores
`slug = slugify name` — the one pure function (lowercase, then spaces and
underscores to hyphens) — on all three creation paths: the direct POST
/categories endpoint (first conjunct, which also shows the insertion), and
both assistant extraction stages (second conjunct: any category present in
the resolver's output store that was not in the input store obeys the same
slug law). -/
theorem c6_slug_deterministic :
    (∀ (input : CategoryCreate) (store : List Category) (cat : Category)
        (store' : List Category),
      create_category input store = Except.ok (cat, store') →
      cat.slug = slugify cat.name ∧ store' = store ++ [cat]) ∧
    (∀ (msg : String) (env : AgentEnv) (store : List Category) (c : Category),
      c ∈ (admin_assistant_chat msg env store).store → c ∉ store →
      c.slug = slugify c.name) := by
  constructor
  · intro input store cat store' h
    unfold create_category at h
    dsimp only at h
    cases hf : findBySlug store (slugify input.name) with
    | some c0 => rw [hf] at h; simp at h
    | none =>
      rw [hf] at h
      obtain ⟨rfl, rfl⟩ :
          (⟨input.name, slugify input.name, input.description⟩ : Category) = cat ∧
          store ++ [(⟨input.name, slugify input.name, input.description⟩ : Category)] = store' := by
        simpa using h
      exact ⟨rfl, rfl⟩
  · intro msg env store c hmem hnot
    rcases resolver_store_invariant msg env store with h | ⟨name, desc, h⟩
    · rw [h] at hmem; exact absurd hmem hnot
    · rw [h] at hmem
      rcases List.mem_append.mp hmem with hin | hin
      · exact absurd hin hnot
      · rcases List.mem_singleton.mp hin with rfl
        rfl

theorem c6_witness :
    ((⟨"My Cat", "my-cat", "d"⟩ : Category).slug =
        slugify (⟨"My Cat", "my-cat", "d"⟩ : Category).name ∧
      [(⟨"My Cat", "my-cat", "d"⟩ : Category)] =
        ([] : List Category) ++ [⟨"My Cat", "my-cat", "d"⟩]) ∧
    (⟨"Data Sci", "data-sci", ""⟩ : Category).slug =
      slugify (⟨"Data Sci", "data-sci", ""⟩ : Category).name :=
  ⟨c6_slug_deterministic.1 ⟨"My Cat", "d"⟩ [] ⟨"My Cat", "my-cat", "d"⟩
      [⟨"My Cat", "my-cat", "d"⟩] rfl,
    c6_slug_deterministic.2 "create a category called Data Sci"
      ⟨ExecBehavior.returns ⟨true, "", none⟩,
        ParseOutcome.objOk "Data Sci" "",
        ExecBehavior.returns ⟨true, "", none⟩,
        ExecBehavior.returns ⟨true, "", none⟩⟩ []
      ⟨"Data Sci", "data-sci", ""⟩ (by decide) (by decide)⟩

theorem length_insertByName (c : Category) (l : List Category) :
    (insertByName c l).length = l.length + 1 := by
  induction l with
  | nil => rfl
  | cons d ds ih =>
    unfold insertByName
    split
    · simp
    · simp [ih]

theorem length_sortByName (l : List Category) :
    (sortByName l).length = l.length := by
  induction l with
  | nil => rfl
  | cons c cs ih => simp [sortByName, length_insertByName, ih]

theorem mem_insertByName (a c : Category) (l : List Category) :
    a ∈ insertByName c l ↔ a = c ∨ a ∈ l := by
  induction l with
  | nil => simp [insertByName]
  | cons d ds ih =>
    unfold insertByName
    split
    · simp [or_comm, or_left_comm]
    · simp [ih, or_comm, or_left_comm]

theorem mem_sortByName (a : Category) (l : List Category) :
    a ∈ sortByName l ↔ a ∈ l := by
  induction l with
  | nil => simp [sortByName]
  | cons c cs ih => simp [sortByName, mem_insertByName, ih]

theorem joinLines_decomp (f : Category → String) (c : Category) (l : List Category)
    (h : c ∈ l) : ∃ pre post, joinLines (l.map f) = pre ++ f c ++ post := by
  induction l with
  | nil => cases h
  | cons d ds ih =>
    rcases List.mem_cons.mp h with rfl | hmem
    · cases ds with
      | nil =>
        refine ⟨"", "", ?_⟩
        show f c = ("" ++ f c) ++ ""
        rw [String.empty_append, String.append_empty]
      | cons e es =>
        refine ⟨"", "\n" ++ joinLines ((e :: es).map f), ?_⟩
        show (f c ++ "\n") ++ joinLines ((e :: es).map f) =
          ("" ++ f c) ++ ("\n" ++ joinLines ((e :: es).map f))
        rw [String.empty_append, String.append_assoc]
    · cases ds with
      | nil => cases hmem
      | cons e es =>
        obtain ⟨pre, post, hp⟩ := ih hmem
        refine ⟨(f d ++ "\n") ++ pre, post, ?_⟩
        show (f d ++ "\n") ++ joinLines ((e :: es).map f) =
          (((f d ++ "\n") ++ pre) ++ f c) ++ post
        rw [hp]
        simp [String.append_assoc]

/-- The nonempty case of the listing branch, in closed form. -/
theorem listCategoriesResponse_nonempty (store : List Category) (h : store ≠ []) :
    listCategoriesResponse store =
      { success := true
        response := "Here are your categories:\n" ++
          joinLines (((sortByName store).take 100).map (fun cat => "â€¢ " ++ cat.name))
        action_taken := some "list_categories"
        action_result := some
          { categories := none, count := some (min 100 store.length), category := none }
        error := none } := by
  have hlen : ((sortByName store).take 100).length = min 100 store.length := by
    rw [List.length_take, length_sortByName]
  have hpos : 0 < store.length := List.length_pos.mpr h
  have hne : (sortByName store).take 100 ≠ [] := by
    intro hh
    rw [hh] at hlen
    simp at hlen
    omega
  have hie : ((sortByName store).take 100).isEmpty = false := by
    cases hfe : ((sortByName store).take 100).isEmpty
    · rfl
    · exact absurd (List.isEmpty_iff.mp hfe) hne
  unfold listCategoriesResponse
  dsimp only
  rw [hie]
  simp only [Bool.false_eq_true, if_false]
  rw [hlen]

/-- Claim C7 counterexample: with 101 stored categories the ListCategories
pipeline reports `action_result.count = 100`, not the store's size 101, so
"action_result is `count: N`" and "response_text contains every category
name" fail for stores beyond the fetch limit. -/
theorem c7_counterexample :
    ((admin_assistant_chat "show me all categories"
      ⟨ExecBehavior.returns ⟨true, "", none⟩, ParseOutcome.decodeError,
        ExecBehavior.returns ⟨true, "", none⟩, ExecBehavior.returns ⟨true, "", none⟩⟩
      (List.replicate 101 ⟨"Tech", "tech", ""⟩)).response?.map
        (fun r => r.action_result)) =
      some (some { categories := none, count := some 100, category := none }) ∧
    (List.replicate 101 (⟨"Tech", "tech", ""⟩ : Category)).length = 101 := by
  constructor
  · have h : List.replicate 101 (⟨"Tech", "tech", ""⟩ : Category) ≠ [] := by
      intro hh
      have := congrArg List.length hh
      rw [List.length_replicate] at this
      simp at this
    have hr := listCategoriesResponse_nonempty _ h
    unfold admin_assistant_chat
    rw [show classify_intent "show me all categories" = Intent.listCategories from by decide]
    dsimp only
    rw [hr, List.length_replicate]
    simp
  · rw [List.length_replicate]

/-- Claim C7 (amended): on a ListCategories message the resolver returns the
listing response with the store unchanged; with zero categories it is the
success invitation carrying `action_result = {categories: [], count: 0}`;
with N > 0 categories it is a success response with
`action_result = {count: min(N, 100)}` — the enumerated list is not
duplicated there — whose text contains the name of every fetched category
(the first min(N, 100) in name order), hence every stored name whenever
N ≤ 100.  The original claim's "count = N / every name" reading holds only
up to the fetch limit of 100. -/
theorem c7_list_categories (msg : String) (env : AgentEnv) (store : List Category)
    (hintent : classify_intent msg = Intent.listCategories) :
    admin_assistant_chat msg env store = ⟨some (listCategoriesResponse store), store, []⟩ ∧
    (store = [] →
      listCategoriesResponse store =
        { success := true
          response := "You don't have any categories yet. Would you like me to create one?"
          action_taken := some "list_categories"
          action_result := some
            { categories := some [], count := some 0, category := none }
          error := none }) ∧
    (store ≠ [] →
      (listCategoriesResponse store).success = true ∧
      (listCategoriesResponse store).action_taken = some "list_categories" ∧
      (listCategoriesResponse store).action_result = some
        { categories := none, count := some (min 100 store.length), category := none } ∧
      (∀ c ∈ (sortByName store).take 100,
        containsSub (listCategoriesResponse store).response c.name = true) ∧
      (store.length ≤ 100 → ∀ c ∈ store,
        containsSub (listCategoriesResponse store).response c.name = true)) := by
  refine ⟨?_, ?_, ?_⟩
  · unfold admin_assistant_chat
    rw [hintent]
  · intro h; subst h; rfl
  · intro h
    have hr := listCategoriesResponse_nonempty store h
    have hcontain : ∀ c ∈ (sortByName store).take 100,
        containsSub (listCategoriesResponse store).response c.name = true := by
      intro c hc
      obtain ⟨pre, post, hp⟩ := joinLines_decomp (fun cat => "â€¢ " ++ cat.name) c _ hc
      rw [hr]
      apply containsSub_of_eq _ (("Here are your categories:\n" ++ pre) ++ "â€¢ ") c.name post
      dsimp only
      rw [hp]
      simp [String.append_assoc]
    refine ⟨by rw [hr], by rw [hr], by rw [hr], hcontain, ?_⟩
    intro hle c hc
    have hall : (sortByName store).take 100 = sortByName store :=
      List.take_of_length_le (by rw [length_sortByName]; omega)
    exact hcontain c (by rw [hall]; exact (mem_sortByName c store).mpr hc)

theorem c7_witness :
    admin_assistant_chat "what categories are there"
      ⟨ExecBehavior.returns ⟨true, "", none⟩, ParseOutcome.decodeError,
        ExecBehavior.returns ⟨true, "", none⟩, ExecBehavior.returns ⟨true, "", none⟩⟩ [] =
      ⟨some (listCategoriesResponse []), [], []⟩ ∧
    listCategoriesResponse [] =
      { success := true
        response := "You don't have any categories yet. Would you like me to create one?"
        action_taken := some "list_categories"
        action_result := some
          { categories := some [], count := some 0, category := none }
        error := none } ∧
    (listCategoriesResponse [⟨"Bananas", "bananas", ""⟩, ⟨"Apples", "apples", ""⟩]).action_result =
      some
        { categories := none
          count := some (min 100 ([(⟨"Bananas", "bananas", ""⟩ : Category),
            ⟨"Apples", "apples", ""⟩]).length)
          category := none } ∧
    containsSub (listCategoriesResponse
      [⟨"Bananas", "bananas", ""⟩, ⟨"Apples", "apples", ""⟩]).response
      (⟨"Apples", "apples", ""⟩ : Category).name = true :=
  ⟨(c7_list_categories "what categories are there"
      ⟨ExecBehavior.returns ⟨true, "", none⟩, ParseOutcome.decodeError,
        ExecBehavior.returns ⟨true, "", none⟩, ExecBehavior.returns ⟨true, "", none⟩⟩
      [] (by decide)).1,
    (c7_list_categories "what categories are there"
      ⟨ExecBehavior.returns ⟨true, "", none⟩, ParseOutcome.decodeError,
        ExecBehavior.returns ⟨true, "", none⟩, ExecBehavior.returns ⟨true, "", none⟩⟩
      [] (by decide)).2.1 rfl,
    ((c7_list_categories "show me all categories"
      ⟨ExecBehavior.returns ⟨true, "", none⟩, ParseOutcome.decodeError,
        ExecBehavior.returns ⟨true, "", none⟩, ExecBehavior.returns ⟨true, "", none⟩⟩
      [⟨"Bananas", "bananas", ""⟩, ⟨"Apples", "apples", ""⟩] (by decide)).2.2
      (by decide)).2.2.1,
    ((c7_list_categories "show me all categories"
      ⟨ExecBehavior.returns ⟨true, "", none⟩, ParseOutcome.decodeError,
        ExecBehavior.returns ⟨true, "", none⟩, ExecBehavior.returns ⟨true, "", none⟩⟩
      [⟨"Bananas", "bananas", ""⟩, ⟨"Apples", "apples", ""⟩] (by decide)).2.2
      (by decide)).2.2.2.1 ⟨"Apples", "apples", ""⟩ (by decide)⟩

/-- Claim C10: both category-listing operations read at most the first 100
categories of the name-sorted store: GET /categories returns exactly that
bounded fetch (so at most 100 records), and the assistant's ListCategories
branch builds its response from the same store, whose `action_result` never
reports a count above 100 nor carries a list longer than 100, for every
store state. -/
theorem c10_listing_reads_at_most_100 (store : List Category) :
    get_categories store = (sortByName store).take 100 ∧
    (get_categories store).length ≤ 100 ∧
    (∀ msg env, classify_intent msg = Intent.listCategories →
      (admin_assistant_chat msg env store).response? = some (listCategoriesResponse store)) ∧
    (∀ ar, (listCategoriesResponse store).action_result = some ar →
      (∀ n, ar.count = some n → n ≤ 100) ∧
      (∀ l, ar.categories = some l → l.length ≤ 100)) := by
  refine ⟨rfl, List.length_take_le 100 _, ?_, ?_⟩
  · intro msg env h
    unfold admin_assistant_chat
    rw [h]
  · intro ar har
    by_cases hs : store = []
    · subst hs
      have h2 : (some
          { categories := some ([] : List Category), count := some 0, category := none } :
          Option ActionResult) = some ar := har
      obtain rfl := (Option.some.injEq _ _).mp h2
      constructor
      · intro n hn
        obtain rfl := (Option.some.injEq _ _).mp hn.symm
        omega
      · intro l hl
        obtain rfl := (Option.some.injEq _ _).mp hl.symm
        simp
    · have hr := listCategoriesResponse_nonempty store hs
      rw [hr] at har
      have h2 : (some
          { categories := none, count := some (min 100 store.length), category := none } :
          Option ActionResult) = some ar := har
      obtain rfl := (Option.some.injEq _ _).mp h2
      constructor
      · intro n hn
        obtain rfl := (Option.some.injEq _ _).mp hn.symm
        omega
      · intro l hl
        simp at hl

theorem c10_witness :
    get_categories [(⟨"B", "b", ""⟩ : Category), ⟨"A", "a", ""⟩] =
      (sortByName [(⟨"B", "b", ""⟩ : Category), ⟨"A", "a", ""⟩]).take 100 ∧
    (get_categories [(⟨"B", "b", ""⟩ : Category), ⟨"A", "a", ""⟩]).length ≤ 100 ∧
    (admin_assistant_chat "list the categories"
      ⟨ExecBehavior.returns ⟨true, "", none⟩, ParseOutcome.decodeError,
        ExecBehavior.returns ⟨true, "", none⟩, ExecBehavior.returns ⟨true, "", none⟩⟩
      [(⟨"B", "b", ""⟩ : Category), ⟨"A", "a", ""⟩]).response? =
      some (listCategoriesResponse [(⟨"B", "b", ""⟩ : Category), ⟨"A", "a", ""⟩]) ∧
    (2 : Nat) ≤ 100 :=
  ⟨(c10_listing_reads_at_most_100 [⟨"B", "b", ""⟩, ⟨"A", "a", ""⟩]).1,
    (c10_listing_reads_at_most_100 [⟨"B", "b", ""⟩, ⟨"A", "a", ""⟩]).2.1,
    (c10_listing_reads_at_most_100 [⟨"B", "b", ""⟩, ⟨"A", "a", ""⟩]).2.2.1
      "list the categories"
      ⟨ExecBehavior.returns ⟨true, "", none⟩, ParseOutcome.decodeError,
        ExecBehavior.returns ⟨true, "", none⟩, ExecBehavior.returns ⟨true, "", none⟩⟩
      (by decide),
    ((c10_listing_reads_at_most_100 [⟨"B", "b", ""⟩, ⟨"A", "a", ""⟩]).2.2.2
      { categories := none, count := some (min 100 2), category := none }
      (by decide)).1 2 rfl⟩
